import Mathlib

/-!
Verification development for the TrucoCarta client (TypeScript/React).

The repository is the client-side presentation layer of an online Truco card
game: a connection-manager singleton (`src/lib/socket.ts`), a lobby screen
(`src/components/truco/lobby-screen.tsx`) and a game screen, all wired to an
external server over a socket.  This file gives a shallow embedding of the
state and event handlers those components implement, translated directly from
the TypeScript source, and proves the behavioural properties stated in the
specification about them.

Modelling conventions:
- React `useState` component state becomes a Lean structure; each event
  handler becomes a pure function from (inputs, state) to (state, emitted
  request events).
- A socket handle is modelled by a natural number drawn from a freshness
  counter, so that "a new connection" is a handle distinct from all earlier
  ones.
- `toast(...)` calls (the user-facing notices) are accumulated in a `toasts`
  list field; `console.error` calls in a `consoleErrors` list.
- A TypeScript `Partial` record becomes a structure of `Option` fields, with
  `none` meaning the key is absent from the pushed object.
- JavaScript `a || b` on strings (falsy = empty string / undefined) is
  embedded as `jsOr` below.
-/

namespace Truco

/-- JavaScript `a || b` for an optional string `a`: the result is `a`'s value
when it is present and non-empty, and `b` otherwise (both `undefined` and the
empty string are falsy in JavaScript). -/
def jsOr (a : Option String) (b : String) : String :=
  match a with
  | some s => if s = "" then b else s
  | none => b

/-- JavaScript `a || b` for plain strings: `a` unless it is empty. -/
def jsOrString (a b : String) : String :=
  if a = "" then b else a

/-! ## Connection manager (`src/lib/socket.ts`, class `SocketManager`)

The manager holds `socket: Socket | null`.  We model a live handle as a `Nat`
identifier and keep a freshness counter `nextId`: each call to `io(...)` in
the source creates a brand-new connection object, modelled here as consuming
the counter.  -/

/-- State of the `SocketManager` singleton: the cached handle (if any) and the
freshness counter used to mint new handles. -/
structure SocketManagerState where
  socket : Option Nat
  nextId : Nat
deriving DecidableEq, Repr

namespace SocketManager

/-- The manager before any call: `private socket = null`. -/
def initial : SocketManagerState := ⟨none, 0⟩

/-- `connect()`: `if (!this.socket) { this.socket = io(...) } return this.socket`.
Returns the handle together with the updated manager state. -/
def connect (s : SocketManagerState) : Nat × SocketManagerState :=
  match s.socket with
  | some h => (h, s)
  | none => (s.nextId, ⟨some s.nextId, s.nextId + 1⟩)

/-- `disconnect()`: `if (this.socket) { this.socket.disconnect(); this.socket = null }`. -/
def disconnect (s : SocketManagerState) : SocketManagerState :=
  match s.socket with
  | some _ => { s with socket := none }
  | none => s

/-- `getSocket()`: `return this.socket`. -/
def getSocket (s : SocketManagerState) : Option Nat := s.socket

/-- Well-formedness of a manager state: any cached handle was minted by the
freshness counter, so it is strictly below `nextId`. -/
def WF (s : SocketManagerState) : Prop :=
  ∀ x, s.socket = some x → x < s.nextId

theorem connect_of_some (s : SocketManagerState) (a : Nat) (hs : s.socket = some a) :
    connect s = (a, s) := by
  simp [connect, hs]

theorem connect_of_none (s : SocketManagerState) (hs : s.socket = none) :
    connect s = (s.nextId, ⟨some s.nextId, s.nextId + 1⟩) := by
  simp [connect, hs]

theorem disconnect_of_some (s : SocketManagerState) (a : Nat) (hs : s.socket = some a) :
    disconnect s = { s with socket := none } := by
  simp [disconnect, hs]

theorem disconnect_of_none (s : SocketManagerState) (hs : s.socket = none) :
    disconnect s = s := by
  simp [disconnect, hs]

theorem wf_initial : WF initial := by
  intro x hx
  simp [initial] at hx

theorem wf_connect (s : SocketManagerState) (h : WF s) : WF (connect s).2 := by
  cases hs : s.socket with
  | some a =>
    rw [connect_of_some s a hs]
    exact h
  | none =>
    rw [connect_of_none s hs]
    intro x hx
    simp at hx ⊢
    omega

theorem wf_disconnect (s : SocketManagerState) (h : WF s) : WF (disconnect s) := by
  cases hs : s.socket with
  | some a =>
    rw [disconnect_of_some s a hs]
    intro x hx
    simp at hx
  | none =>
    rw [disconnect_of_none s hs]
    exact h

end SocketManager

/-! ## Shared view-model types

`GameConfig`, `Card` and `GameState` live in `@/types/truco`, outside the
visible sources; their shapes are modelled from the spec (§3: "GameState
(partial): turn owner, phase, per-player scores, per-player envido points,
configuration"; "GameConfig: max points and a flor-enabled flag"; "Hand:
ordered list of card identifiers") and from how the visible components read
them (`gameState.turnPlayerId`, `gameState.phase`, `gameState.scores`,
`gameState.envidoPoints`, `gameState.config`, `card.suit`, `card.rank`). -/

/-- `GameConfig`: max points and the flor-enabled flag. -/
structure GameConfig where
  maxPoints : Nat
  withFlor : Bool
deriving DecidableEq, Repr

/-- A card of the local player's hand: an identifier (used by `play:card`)
plus the suit/rank the card component renders. -/
structure Card where
  id : String
  suit : String
  rank : Nat
deriving DecidableEq, Repr

/-- A room participant as pushed by the server (`room:update`, join acks). -/
structure Player where
  id : String
  name : String
  connected : Bool
deriving DecidableEq, Repr

/-- The `Room` interface of `GameScreen`: id, participant list, status
(`"waiting" | "playing" | "ended"`) and participant count. -/
structure Room where
  id : String
  players : List Player
  status : String
  playerCount : Nat
deriving DecidableEq, Repr

/-- A TypeScript `Partial<GameState>` value: each field is `some v` when the
key is present in the pushed object and `none` when it is absent.  Per-player
maps (`scores`, `envidoPoints`) are association lists from player id. -/
structure GameStatePatch where
  turnPlayerId : Option String
  phase : Option String
  scores : Option (List (String × Nat))
  envidoPoints : Option (List (String × Nat))
  config : Option GameConfig
deriving DecidableEq, Repr

/-- The empty object `{}`, the initial value of the game screen's
`useState<Partial<GameState>>({})`. -/
def emptyGameStatePatch : GameStatePatch :=
  ⟨none, none, none, none, none⟩

/-- The JavaScript object spread `{ ...prev, ...updated }` on two
`Partial<GameState>` values: keys present in `updated` override `prev`, keys
absent from `updated` keep `prev`'s binding. -/
def mergeGameState (prev updated : GameStatePatch) : GameStatePatch where
  turnPlayerId := match updated.turnPlayerId with
    | some v => some v
    | none => prev.turnPlayerId
  phase := match updated.phase with
    | some v => some v
    | none => prev.phase
  scores := match updated.scores with
    | some v => some v
    | none => prev.scores
  envidoPoints := match updated.envidoPoints with
    | some v => some v
    | none => prev.envidoPoints
  config := match updated.config with
    | some v => some v
    | none => prev.config

/-- A `toast(...)` call: title, description, and whether the `destructive`
variant was used. -/
structure Toast where
  title : String
  description : String
  destructive : Bool
deriving DecidableEq, Repr

/-- An entry of the game screen's message log. -/
structure GameMessage where
  type : String
  text : String
deriving DecidableEq, Repr

/-! ## Game screen (`GameScreen` component)

Component state is the tuple of its `useState`/`useRef` hooks, plus the list
of toasts shown so far (the user-facing notices).  Timestamps (`new Date()`)
are not modelled: no claim depends on them. -/

/-- The game screen's local state. -/
structure GameScreenState where
  room : Option Room
  gameState : GameStatePatch
  playerHand : List Card
  messages : List GameMessage
  connected : Bool
  currentPlayerId : String
  reconnecting : Bool
  actionInProgress : Option String
  reconnectAttempts : Nat
  toasts : List Toast
deriving DecidableEq, Repr

/-- The game screen's state right after mount, from the `useState`/`useRef`
initialisers: no room, empty game state `{}`, empty hand, no messages, not
connected, empty player id, not reconnecting, no action in flight, zero
reconnect attempts. -/
def initialGameScreenState : GameScreenState where
  room := none
  gameState := emptyGameStatePatch
  playerHand := []
  messages := []
  connected := false
  currentPlayerId := ""
  reconnecting := false
  actionInProgress := none
  reconnectAttempts := 0
  toasts := []

/-- An outbound request event emitted by a game-screen action handler. -/
inductive EmitEvent where
  | gameStart (roomId : String)
  | playCard (roomId : String) (cardId : String)
  | callTruco (roomId : String)
  | callEnvido (roomId : String) (envidoType : String)
  | callFlor (roomId : String)
  | phaseSkip (roomId : String)
  | callResponse (roomId : String) (accept : Bool)
deriving DecidableEq, Repr

/-- A callback-style acknowledgement for a game-screen action: success flag
and optional error message. -/
structure AckResponse where
  success : Bool
  error : Option String
deriving DecidableEq, Repr

/-- How JavaScript renders `scores[winnerId]` inside a template string when
the key may be missing. -/
def scoreDisplay : Option Nat → String
  | some n => toString n
  | none => "undefined"

/-- The `game:update` listener:
`setGameState((prev) => ({ ...prev, ...updatedGameState }))` followed by
`setActionInProgress(null)`. -/
def onGameUpdate (updatedGameState : GameStatePatch) (s : GameScreenState) :
    GameScreenState :=
  { s with
    gameState := mergeGameState s.gameState updatedGameState
    actionInProgress := none }

/-- The `game:hand` listener: `setPlayerHand(hand)`. -/
def onGameHand (hand : List Card) (s : GameScreenState) : GameScreenState :=
  { s with playerHand := hand }

/-- The `game:ended` listener: look the winner up in the current room's
participant list; when found, append a winner message and show a toast; in
every case clear the in-flight action flag. -/
def onGameEnded (winnerId : String) (scores : List (String × Nat))
    (s : GameScreenState) : GameScreenState :=
  let s1 : GameScreenState :=
    match ((s.room.map Room.players).getD []).find? (fun p => p.id == winnerId) with
    | some winner =>
      { s with
        messages := s.messages ++
          [⟨"winner", "¡Partida terminada! " ++ winner.name ++ " ganó con " ++
            scoreDisplay (scores.lookup winnerId) ++ " puntos"⟩]
        toasts := s.toasts ++ [⟨"Partida terminada", winner.name ++ " ganó la partida", false⟩] }
    | none => s
  { s1 with actionInProgress := none }

/-! ### Action handlers

Each handler reads `socketManager.getSocket()` (here a parameter
`socket : Option Nat`) and is guarded by `if (socket && !actionInProgress)`
(`handlePlayCard` additionally requires
`gameState.turnPlayerId === currentPlayerId`).  When the guard holds it sets
the in-flight flag to the handler's label and emits its request event;
otherwise it does nothing. -/

/-- `handleStartGame`. -/
def handleStartGame (socket : Option Nat) (roomId : String) (s : GameScreenState) :
    GameScreenState × List EmitEvent :=
  if socket.isSome ∧ s.actionInProgress = none then
    ({ s with actionInProgress := some "starting" }, [.gameStart roomId])
  else
    (s, [])

/-- `handlePlayCard`: also requires that the turn owner in the game state is
the local player (`gameState.turnPlayerId === currentPlayerId`; false when
the field is absent). -/
def handlePlayCard (socket : Option Nat) (roomId : String) (cardId : String)
    (s : GameScreenState) : GameScreenState × List EmitEvent :=
  if socket.isSome ∧ s.actionInProgress = none ∧
      s.gameState.turnPlayerId = some s.currentPlayerId then
    ({ s with actionInProgress := some "playing-card" }, [.playCard roomId cardId])
  else
    (s, [])

/-- `handleCallTruco`. -/
def handleCallTruco (socket : Option Nat) (roomId : String) (s : GameScreenState) :
    GameScreenState × List EmitEvent :=
  if socket.isSome ∧ s.actionInProgress = none then
    ({ s with actionInProgress := some "calling-truco" }, [.callTruco roomId])
  else
    (s, [])

/-- `handleCallEnvido` (the sub-type is `"envido" | "real_envido" |
"falta_envido"`). -/
def handleCallEnvido (socket : Option Nat) (roomId : String) (envidoType : String)
    (s : GameScreenState) : GameScreenState × List EmitEvent :=
  if socket.isSome ∧ s.actionInProgress = none then
    ({ s with actionInProgress := some ("calling-" ++ envidoType) },
      [.callEnvido roomId envidoType])
  else
    (s, [])

/-- `handleCallFlor`. -/
def handleCallFlor (socket : Option Nat) (roomId : String) (s : GameScreenState) :
    GameScreenState × List EmitEvent :=
  if socket.isSome ∧ s.actionInProgress = none then
    ({ s with actionInProgress := some "calling-flor" }, [.callFlor roomId])
  else
    (s, [])

/-- `handleSkipPhase`. -/
def handleSkipPhase (socket : Option Nat) (roomId : String) (s : GameScreenState) :
    GameScreenState × List EmitEvent :=
  if socket.isSome ∧ s.actionInProgress = none then
    ({ s with actionInProgress := some "skipping-phase" }, [.phaseSkip roomId])
  else
    (s, [])

/-- `handleAcceptCall`. -/
def handleAcceptCall (socket : Option Nat) (roomId : String) (s : GameScreenState) :
    GameScreenState × List EmitEvent :=
  if socket.isSome ∧ s.actionInProgress = none then
    ({ s with actionInProgress := some "accepting-call" }, [.callResponse roomId true])
  else
    (s, [])

/-- `handleRejectCall`. -/
def handleRejectCall (socket : Option Nat) (roomId : String) (s : GameScreenState) :
    GameScreenState × List EmitEvent :=
  if socket.isSome ∧ s.actionInProgress = none then
    ({ s with actionInProgress := some "rejecting-call" }, [.callResponse roomId false])
  else
    (s, [])

/-- The acknowledgement callback shared (up to the fallback text) by all
eight game-screen action handlers: on `success === false`, toast an "Error"
notice whose description is `response.error || fallback`; in every case clear
the in-flight flag.  The per-handler fallbacks in the source are
"No se pudo iniciar la partida", "No se pudo jugar la carta",
"No se pudo cantar truco", "No se pudo cantar envido",
"No se pudo cantar flor", "No se pudo pasar la fase",
"No se pudo aceptar la jugada" and "No se pudo rechazar la jugada". -/
def resolveActionAck (fallback : String) (resp : AckResponse) (s : GameScreenState) :
    GameScreenState :=
  let s1 :=
    if resp.success then s
    else { s with toasts := s.toasts ++ [⟨"Error", jsOr resp.error fallback, true⟩] }
  { s1 with actionInProgress := none }

/-! ### Reconnect loop

On a `disconnect` event with reason `"io server disconnect"` the game screen
calls `attemptReconnect`.  That function gives up with a terminal toast when
the attempt counter has reached `maxReconnectAttempts`; otherwise it sets the
reconnecting flag, increments the counter, and schedules (after
`Math.min(1000 * Math.pow(2, reconnectAttempts.current), 10000)` milliseconds,
computed after the increment) a `player:join` attempt. -/

/-- `maxReconnectAttempts = 5`. -/
def maxReconnectAttempts : Nat := 5

/-- The toast shown when reconnection is given up. -/
def terminalReconnectToast : Toast :=
  ⟨"Error de conexión", "No se pudo reconectar al servidor. Intenta recargar la página.", true⟩

/-- One invocation of `attemptReconnect`: the returned `Option Nat` is the
delay in milliseconds before the scheduled reconnect attempt, or `none` when
the invocation makes no attempt (terminal notice instead). -/
def attemptReconnect (s : GameScreenState) : GameScreenState × Option Nat :=
  if maxReconnectAttempts ≤ s.reconnectAttempts then
    ({ s with toasts := s.toasts ++ [terminalReconnectToast] }, none)
  else
    ({ s with reconnecting := true, reconnectAttempts := s.reconnectAttempts + 1 },
      some (min (1000 * 2 ^ (s.reconnectAttempts + 1)) 10000))

/-- Acknowledgement payload of a `player:join` request. -/
structure PlayerJoinResponse where
  success : Bool
  room : Option Room
  error : Option String
deriving DecidableEq, Repr

/-- The acknowledgement callback of the `player:join` emitted by a reconnect
attempt: on success restore the room, clear the reconnecting flag, reset the
attempt counter and toast a success notice; on failure do nothing (the
callback has no else-branch). -/
def attemptReconnectJoinAck (resp : PlayerJoinResponse) (s : GameScreenState) :
    GameScreenState :=
  if resp.success then
    { s with
      room := resp.room
      reconnecting := false
      reconnectAttempts := 0
      toasts := s.toasts ++ [⟨"Reconectado", "Te has reconectado exitosamente al juego.", false⟩] }
  else s

/-- `n` successive runs of the reconnect loop in which every scheduled
`player:join` attempt fails: a failed acknowledgement leaves the state
unchanged (`attemptReconnectJoinAck`), so each further forced disconnect
invokes `attemptReconnect` on the state the previous invocation produced.
Returns the final state and the list of per-invocation delays
(`none` = no attempt made, terminal notice shown). -/
def reconnectTrace : Nat → GameScreenState → GameScreenState × List (Option Nat)
  | 0, s => (s, [])
  | n + 1, s =>
    let step := attemptReconnect s
    let rest := reconnectTrace n step.1
    (rest.1, step.2 :: rest.2)

/-! ## Lobby screen (`LobbyScreen` component, `src/components/truco/lobby-screen.tsx`) -/

/-- The `WaitingRoom` interface: id, optional access code, participant count,
creation time (milliseconds; no claim depends on it) and configuration. -/
structure WaitingRoom where
  id : String
  code : Option String
  playerCount : Nat
  createdAt : Nat
  config : GameConfig
deriving DecidableEq, Repr

/-- An outbound request event emitted by a lobby handler. -/
inductive LobbyEmit where
  | roomCreate (name : String) (config : GameConfig)
  | roomsList
  | roomJoinCode (code : String) (name : String)
  | matchQuick (config : GameConfig)
deriving DecidableEq, Repr

/-- The lobby screen's local state, plus the record of its observable calls:
`toasts` collects user-facing notices (the lobby component renders none and
never calls `toast`, so no lobby handler appends to it), `consoleErrors`
collects `console.error(label, detail)` calls, and `joinedRoom` records the
last `onJoinRoom` navigation. -/
structure LobbyState where
  joinRoomId : String
  createdRoomId : String
  createdRoomCode : String
  waitingRooms : List WaitingRoom
  connected : Bool
  loading : Bool
  quickMatchLoading : Bool
  toasts : List Toast
  consoleErrors : List (String × Option String)
  joinedRoom : Option String
deriving DecidableEq, Repr

/-- The lobby state right after mount, from the `useState` initialisers. -/
def initialLobbyState : LobbyState where
  joinRoomId := ""
  createdRoomId := ""
  createdRoomCode := ""
  waitingRooms := []
  connected := false
  loading := false
  quickMatchLoading := false
  toasts := []
  consoleErrors := []
  joinedRoom := none

/-- `fetchWaitingRooms`: emit `rooms:list` when a socket is cached and the
screen is connected. -/
def fetchWaitingRooms (socket : Option Nat) (s : LobbyState) : List LobbyEmit :=
  if socket.isSome ∧ s.connected then [.roomsList] else []

/-- `handleCreateRoom`: bail out without a socket, otherwise set the loading
flag and emit `room:create` with the player name and the locally chosen
configuration. -/
def handleCreateRoom (socket : Option Nat) (playerName : String)
    (gameConfig : GameConfig) (s : LobbyState) : LobbyState × List LobbyEmit :=
  match socket with
  | none => (s, [])
  | some _ => ({ s with loading := true }, [.roomCreate playerName gameConfig])

/-- Acknowledgement payload of a `room:create` request. -/
structure CreateRoomResponse where
  success : Bool
  roomId : String
  code : Option String
  error : Option String
deriving DecidableEq, Repr

/-- The `room:create` acknowledgement callback: clear the loading flag; on
success store the room id and the code (`response.code || ""`) and refresh
the room list; on failure `console.error("Failed to create room:", ...)`. -/
def handleCreateRoomAck (socket : Option Nat) (resp : CreateRoomResponse)
    (s : LobbyState) : LobbyState × List LobbyEmit :=
  let s1 : LobbyState := { s with loading := false }
  if resp.success then
    let s2 : LobbyState :=
      { s1 with createdRoomId := resp.roomId, createdRoomCode := jsOr resp.code "" }
    (s2, fetchWaitingRooms socket s2)
  else
    ({ s1 with consoleErrors := s1.consoleErrors ++ [("Failed to create room:", resp.error)] },
      [])

/-- `handleJoinRoom(roomId?)`: join `roomId || joinRoomId.trim()` when that
target is non-empty. -/
def handleJoinRoom (roomId : Option String) (s : LobbyState) : LobbyState :=
  let targetRoomId := jsOr roomId s.joinRoomId.trim
  if targetRoomId = "" then s else { s with joinedRoom := some targetRoomId }

/-- `handleJoinCreatedRoom`: `if (createdRoomId) { onJoinRoom(createdRoomId) }`. -/
def handleJoinCreatedRoom (s : LobbyState) : LobbyState :=
  if s.createdRoomId = "" then s else { s with joinedRoom := some s.createdRoomId }

/-- What the create-room card shows as "Código de Acceso": nothing while no
room was created (`!createdRoomId` renders the create button instead), and
`createdRoomCode || createdRoomId` afterwards. -/
def displayedAccessCode (s : LobbyState) : Option String :=
  if s.createdRoomId = "" then none
  else some (jsOrString s.createdRoomCode s.createdRoomId)

/-- Whether the "Entrar a la Sala" action is rendered (it carries no
`disabled` attribute): exactly when a created room id is held. -/
def enterRoomShown (s : LobbyState) : Bool :=
  !(s.createdRoomId = "")

/-- The `compatibleRooms` filter: waiting rooms whose configuration matches
the local player's configuration in both max points and flor flag. -/
def compatibleRooms (gameConfig : GameConfig) (waitingRooms : List WaitingRoom) :
    List WaitingRoom :=
  waitingRooms.filter fun room =>
    room.config.maxPoints == gameConfig.maxPoints &&
      room.config.withFlor == gameConfig.withFlor

/-- The `disabled` attribute of a listed room's join button:
`!connected || room.playerCount >= 2`. -/
def joinButtonDisabled (connected : Bool) (room : WaitingRoom) : Bool :=
  !connected || decide (2 ≤ room.playerCount)

/-! ## Theorems -/

/-- A second `connect()` without an intervening `disconnect()` returns the
very same handle/state pair as the first: helper for the idempotence claim. -/
theorem connect_stable (s : SocketManagerState) :
    SocketManager.connect (SocketManager.connect s).2 = SocketManager.connect s := by
  cases hs : s.socket with
  | some a =>
    rw [SocketManager.connect_of_some s a hs, SocketManager.connect_of_some s a hs]
  | none =>
    rw [SocketManager.connect_of_none s hs]
    exact SocketManager.connect_of_some _ s.nextId rfl

/-- C3: calling `connect()` on the connection manager twice (or any number of
times) without an intervening `disconnect()` returns the same cached handle
every time, and every repeated call leaves the manager state (cache and
freshness counter) untouched, so no new connection is created. -/
theorem claim_C3_connect_idempotent (s : SocketManagerState) :
    SocketManager.connect (SocketManager.connect s).2 =
      ((SocketManager.connect s).1, (SocketManager.connect s).2) ∧
    ∀ n : Nat,
      (fun p : Nat × SocketManagerState => SocketManager.connect p.2)^[n]
          (SocketManager.connect s) =
        SocketManager.connect s := by
  constructor
  · exact connect_stable s
  · intro n
    induction n with
    | zero => rfl
    | succ n ih =>
      rw [Function.iterate_succ_apply]
      calc (fun p : Nat × SocketManagerState => SocketManager.connect p.2)^[n]
              (SocketManager.connect (SocketManager.connect s).2)
          = (fun p : Nat × SocketManagerState => SocketManager.connect p.2)^[n]
              (SocketManager.connect s) := by rw [connect_stable s]
        _ = SocketManager.connect s := ih

/-- C4: for any well-formed manager state caching a handle `h`,
`disconnect()` clears the cache (`getSocket` returns `none` afterwards), the
next `connect()` mints a handle distinct from `h`, and `getSocket` on a
manager that never connected returns `none`. -/
theorem claim_C4_disconnect_clears (s : SocketManagerState) (h : Nat)
    (hwf : SocketManager.WF s) (hs : s.socket = some h) :
    SocketManager.getSocket (SocketManager.disconnect s) = none ∧
    (SocketManager.connect (SocketManager.disconnect s)).1 ≠ h ∧
    SocketManager.getSocket SocketManager.initial = none := by
  rw [SocketManager.disconnect_of_some s h hs]
  refine ⟨rfl, ?_, rfl⟩
  have hnone : ({ s with socket := none } : SocketManagerState).socket = none := rfl
  rw [SocketManager.connect_of_none _ hnone]
  have hlt : h < s.nextId := hwf h hs
  intro heq
  have heq' : s.nextId = h := heq
  omega

/-- Witness for C4 at the concrete manager state `⟨some 0, 1⟩`. -/
theorem claim_C4_witness :
    SocketManager.getSocket (SocketManager.disconnect ⟨some 0, 1⟩) = none ∧
    (SocketManager.connect (SocketManager.disconnect ⟨some 0, 1⟩)).1 ≠ 0 ∧
    SocketManager.getSocket SocketManager.initial = none :=
  claim_C4_disconnect_clears ⟨some 0, 1⟩ 0
    (by
      intro x hx
      have hx' : (some 0 : Option Nat) = some x := hx
      injection hx' with h0
      show x < 1
      omega) rfl

/-- C5: for every `game:update` push, each field of the local game state that
is absent from the pushed partial update keeps its previous value, and each
pushed field takes exactly the pushed value (merge, not wholesale
replacement). -/
theorem claim_C5_gameUpdate_merges (u : GameStatePatch) (s : GameScreenState) :
    ((u.turnPlayerId = none →
        (onGameUpdate u s).gameState.turnPlayerId = s.gameState.turnPlayerId) ∧
      (u.phase = none → (onGameUpdate u s).gameState.phase = s.gameState.phase) ∧
      (u.scores = none → (onGameUpdate u s).gameState.scores = s.gameState.scores) ∧
      (u.envidoPoints = none →
        (onGameUpdate u s).gameState.envidoPoints = s.gameState.envidoPoints) ∧
      (u.config = none → (onGameUpdate u s).gameState.config = s.gameState.config)) ∧
    ((u.turnPlayerId.isSome →
        (onGameUpdate u s).gameState.turnPlayerId = u.turnPlayerId) ∧
      (u.phase.isSome → (onGameUpdate u s).gameState.phase = u.phase) ∧
      (u.scores.isSome → (onGameUpdate u s).gameState.scores = u.scores) ∧
      (u.envidoPoints.isSome →
        (onGameUpdate u s).gameState.envidoPoints = u.envidoPoints) ∧
      (u.config.isSome → (onGameUpdate u s).gameState.config = u.config)) := by
  refine ⟨⟨?_, ?_, ?_, ?_, ?_⟩, ?_, ?_, ?_, ?_, ?_⟩ <;> intro h <;>
    first
      | (simp [onGameUpdate, mergeGameState, h]; done)
      | (rcases Option.isSome_iff_exists.mp h with ⟨v, hv⟩
         simp [onGameUpdate, mergeGameState, hv])

/-- Witness for C5: a push carrying only a new turn owner leaves the held
phase untouched and overrides the turn owner. -/
theorem claim_C5_witness :
    ((onGameUpdate { emptyGameStatePatch with turnPlayerId := some "p2" }
        { initialGameScreenState with
          gameState :=
            { emptyGameStatePatch with turnPlayerId := some "p1", phase := some "playing" } }
      ).gameState.phase =
      ({ emptyGameStatePatch with turnPlayerId := some "p1", phase := some "playing" }
        : GameStatePatch).phase) ∧
    (onGameUpdate { emptyGameStatePatch with turnPlayerId := some "p2" }
        { initialGameScreenState with
          gameState :=
            { emptyGameStatePatch with turnPlayerId := some "p1", phase := some "playing" } }
      ).gameState.turnPlayerId = some "p2" :=
  ⟨(claim_C5_gameUpdate_merges _ _).1.2.1 rfl,
    (claim_C5_gameUpdate_merges _ _).2.1 rfl⟩

/-- C6: every `game:hand` push replaces the local hand wholesale with the
pushed list, whatever the previous hand held, and touches nothing else. -/
theorem claim_C6_hand_replaced (hand : List Card) (s : GameScreenState) :
    (onGameHand hand s).playerHand = hand ∧
    (onGameHand hand s).room = s.room ∧
    (onGameHand hand s).gameState = s.gameState ∧
    (onGameHand hand s).messages = s.messages ∧
    (onGameHand hand s).connected = s.connected ∧
    (onGameHand hand s).currentPlayerId = s.currentPlayerId ∧
    (onGameHand hand s).reconnecting = s.reconnecting ∧
    (onGameHand hand s).actionInProgress = s.actionInProgress ∧
    (onGameHand hand s).reconnectAttempts = s.reconnectAttempts ∧
    (onGameHand hand s).toasts = s.toasts :=
  ⟨rfl, rfl, rfl, rfl, rfl, rfl, rfl, rfl, rfl, rfl⟩

/-- C7: while an action is in flight on the game screen, every action handler
is a no-op (state unchanged, nothing emitted); and the flag is cleared by any
acknowledgement (success or failure), by a `game:update` push and by a
`game:ended` push. -/
theorem claim_C7_inflight_dedup (socket : Option Nat)
    (roomId cardId envidoType fallback : String) (resp : AckResponse)
    (u : GameStatePatch) (winnerId : String) (scores : List (String × Nat))
    (s : GameScreenState) (a : String) :
    (s.actionInProgress = some a →
      handleStartGame socket roomId s = (s, []) ∧
      handlePlayCard socket roomId cardId s = (s, []) ∧
      handleCallTruco socket roomId s = (s, []) ∧
      handleCallEnvido socket roomId envidoType s = (s, []) ∧
      handleCallFlor socket roomId s = (s, []) ∧
      handleSkipPhase socket roomId s = (s, []) ∧
      handleAcceptCall socket roomId s = (s, []) ∧
      handleRejectCall socket roomId s = (s, [])) ∧
    (resolveActionAck fallback resp s).actionInProgress = none ∧
    (onGameUpdate u s).actionInProgress = none ∧
    (onGameEnded winnerId scores s).actionInProgress = none := by
  refine ⟨fun h => ⟨?_, ?_, ?_, ?_, ?_, ?_, ?_, ?_⟩, rfl, rfl, rfl⟩ <;>
    simp [handleStartGame, handlePlayCard, handleCallTruco, handleCallEnvido,
      handleCallFlor, handleSkipPhase, handleAcceptCall, handleRejectCall, h]

/-- Witness for C7: with a `"starting"` action in flight, `handleCallTruco`
changes nothing and emits nothing, and a failure acknowledgement clears the
flag. -/
theorem claim_C7_witness :
    handleCallTruco (some 0) "R1"
        { initialGameScreenState with actionInProgress := some "starting" } =
      ({ initialGameScreenState with actionInProgress := some "starting" }, []) ∧
    (resolveActionAck "fallo" ⟨false, none⟩
        { initialGameScreenState with actionInProgress := some "starting" }
      ).actionInProgress = none :=
  ⟨((claim_C7_inflight_dedup (some 0) "R1" "c" "envido" "fallo" ⟨false, none⟩
      emptyGameStatePatch "w" []
      { initialGameScreenState with actionInProgress := some "starting" }
      "starting").1 rfl).2.2.1,
    (claim_C7_inflight_dedup (some 0) "R1" "c" "envido" "fallo" ⟨false, none⟩
      emptyGameStatePatch "w" []
      { initialGameScreenState with actionInProgress := some "starting" }
      "starting").2.1⟩

/-- C9: the play-card handler emits a `play:card` request only when the game
state's turn owner is the local player; whenever it is not, the invocation
changes nothing and emits nothing. -/
theorem claim_C9_playCard_turn_guard (socket : Option Nat)
    (roomId cardId : String) (s : GameScreenState) :
    ((handlePlayCard socket roomId cardId s).2 ≠ [] →
      s.gameState.turnPlayerId = some s.currentPlayerId) ∧
    (s.gameState.turnPlayerId ≠ some s.currentPlayerId →
      handlePlayCard socket roomId cardId s = (s, [])) := by
  unfold handlePlayCard
  split
  next hcond =>
    exact ⟨fun _ => hcond.2.2, fun hne => absurd hcond.2.2 hne⟩
  next =>
    exact ⟨fun hne => absurd rfl hne, fun _ => rfl⟩

/-- Witness for C9: on the freshly mounted game screen (no turn owner known)
the play-card handler is a no-op. -/
theorem claim_C9_witness :
    handlePlayCard (some 0) "R1" "card1" initialGameScreenState =
      (initialGameScreenState, []) :=
  (claim_C9_playCard_turn_guard (some 0) "R1" "card1" initialGameScreenState).2
    (by simp [initialGameScreenState, emptyGameStatePatch])

/-- C1 as stated is false: in a fresh game screen, the delays scheduled by the
five reconnect runs are not 1s, 2s, 4s, 8s, 10s — the counter is incremented
before the delay is computed, so the first run already waits 2s. -/
theorem claim_C1_counterexample :
    (reconnectTrace 5 initialGameScreenState).2 ≠
      [some 1000, some 2000, some 4000, some 8000, some 10000] := by
  have htrace : (reconnectTrace 5 initialGameScreenState).2 =
      [some 2000, some 4000, some 8000, some 10000, some 10000] := rfl
  rw [htrace]
  decide

/-- C1 (amended): for a run of the game screen's reconnect loop in which
every attempt fails, the delays before the successive attempts are 2s, 4s,
8s, 10s, 10s (doubling from a 2-second start, capped at 10s), at most 5
attempts are made, and the run after the 5th failure makes no attempt and
shows the terminal notice; any state whose counter has reached the maximum
makes no attempt, leaves the counter untouched and appends the terminal
notice, and a failed `player:join` acknowledgement changes nothing. -/
theorem claim_C1_reconnect_backoff :
    (reconnectTrace 6 initialGameScreenState).2 =
      [some 2000, some 4000, some 8000, some 10000, some 10000, none] ∧
    (reconnectTrace 6 initialGameScreenState).1.toasts = [terminalReconnectToast] ∧
    (reconnectTrace 6 initialGameScreenState).1.reconnectAttempts = 5 ∧
    (∀ s : GameScreenState, maxReconnectAttempts ≤ s.reconnectAttempts →
      (attemptReconnect s).2 = none ∧
      (attemptReconnect s).1.reconnectAttempts = s.reconnectAttempts ∧
      (attemptReconnect s).1.toasts = s.toasts ++ [terminalReconnectToast]) ∧
    (∀ (resp : PlayerJoinResponse) (s : GameScreenState), resp.success = false →
      attemptReconnectJoinAck resp s = s) := by
  refine ⟨rfl, rfl, rfl, ?_, ?_⟩
  · intro s hs
    unfold attemptReconnect
    rw [if_pos hs]
    exact ⟨rfl, rfl, rfl⟩
  · intro resp s hresp
    unfold attemptReconnectJoinAck
    rw [hresp]
    rfl

/-- Witness for C1 (amended): with the counter already at the maximum, a
further run makes no attempt, and a failed join acknowledgement is inert. -/
theorem claim_C1_witness :
    (attemptReconnect { initialGameScreenState with reconnectAttempts := 5 }).2 = none ∧
    attemptReconnectJoinAck ⟨false, none, none⟩ initialGameScreenState =
      initialGameScreenState :=
  ⟨(claim_C1_reconnect_backoff.2.2.2.1
      { initialGameScreenState with reconnectAttempts := 5 } (by decide)).1,
    claim_C1_reconnect_backoff.2.2.2.2 ⟨false, none, none⟩ initialGameScreenState rfl⟩

/-- C2 as stated is false on the lobby screen: a failed `room:create`
acknowledgement carrying the message "No hay servidor" clears the loading
flag but surfaces no user-facing notice — the message goes only to the
developer console. -/
theorem claim_C2_counterexample :
    ((handleCreateRoomAck (some 0) ⟨false, "", none, some "No hay servidor"⟩
        { initialLobbyState with connected := true, loading := true }).1.toasts = []) ∧
    ((handleCreateRoomAck (some 0) ⟨false, "", none, some "No hay servidor"⟩
        { initialLobbyState with connected := true, loading := true }).1.loading = false) ∧
    ((handleCreateRoomAck (some 0) ⟨false, "", none, some "No hay servidor"⟩
        { initialLobbyState with connected := true, loading := true }).1.consoleErrors =
      [("Failed to create room:", some "No hay servidor")]) :=
  ⟨rfl, rfl, rfl⟩

/-- C2 (amended): on the game screen every acknowledgement with
`success=false` clears the in-flight flag and displays a notice carrying the
server-supplied message (or the handler's generic fallback when the server
supplies none or an empty one); on the lobby screen's create-room action the
loading flag is cleared but the failure is only written to the developer
console, with no user-facing notice and no further request. -/
theorem claim_C2_failure_surfacing :
    (∀ (fallback : String) (resp : AckResponse) (s : GameScreenState),
      resp.success = false →
        (resolveActionAck fallback resp s).actionInProgress = none ∧
        (resolveActionAck fallback resp s).toasts =
          s.toasts ++ [⟨"Error", jsOr resp.error fallback, true⟩]) ∧
    (∀ (socket : Option Nat) (resp : CreateRoomResponse) (s : LobbyState),
      resp.success = false →
        (handleCreateRoomAck socket resp s).1.loading = false ∧
        (handleCreateRoomAck socket resp s).1.toasts = s.toasts ∧
        (handleCreateRoomAck socket resp s).1.consoleErrors =
          s.consoleErrors ++ [("Failed to create room:", resp.error)] ∧
        (handleCreateRoomAck socket resp s).2 = []) := by
  constructor
  · intro fallback resp s hresp
    unfold resolveActionAck
    rw [hresp]
    exact ⟨rfl, rfl⟩
  · intro socket resp s hresp
    unfold handleCreateRoomAck
    rw [hresp]
    exact ⟨rfl, rfl, rfl, rfl⟩

/-- Witness for C2 (amended): a failed start-game acknowledgement with no
server message toasts the generic fallback, and a failed create-room
acknowledgement stays silent. -/
theorem claim_C2_witness :
    ((resolveActionAck "No se pudo iniciar la partida" ⟨false, none⟩
        initialGameScreenState).actionInProgress = none ∧
      (resolveActionAck "No se pudo iniciar la partida" ⟨false, none⟩
          initialGameScreenState).toasts =
        initialGameScreenState.toasts ++
          [⟨"Error", jsOr none "No se pudo iniciar la partida", true⟩]) ∧
    (handleCreateRoomAck none ⟨false, "", none, none⟩ initialLobbyState).1.toasts =
      initialLobbyState.toasts :=
  ⟨claim_C2_failure_surfacing.1 "No se pudo iniciar la partida" ⟨false, none⟩
      initialGameScreenState rfl,
    (claim_C2_failure_surfacing.2 none ⟨false, "", none, none⟩ initialLobbyState rfl).2.1⟩

/-- The concrete create-room scenario of the spec: emit with config
`{maxPoints: 15, withFlor: true}` and acknowledge with
`{success: true, roomId: "R1", code: "ABC123"}`. -/
def createRoomScenario : LobbyState :=
  (handleCreateRoomAck (some 0)
    { success := true, roomId := "R1", code := some "ABC123", error := none }
    (handleCreateRoom (some 0) "Ana" { maxPoints := 15, withFlor := true }
        { initialLobbyState with connected := true }).1).1

/-- C8: in the spec's concrete scenario the client emits `room:create` with
the chosen config; after the successful acknowledgement the lobby shows the
access code "ABC123" and the enter-room action is available and navigates to
room "R1". -/
theorem claim_C8_create_room_scenario :
    (handleCreateRoom (some 0) "Ana" { maxPoints := 15, withFlor := true }
        { initialLobbyState with connected := true }).2 =
      [LobbyEmit.roomCreate "Ana" { maxPoints := 15, withFlor := true }] ∧
    displayedAccessCode createRoomScenario = some "ABC123" ∧
    enterRoomShown createRoomScenario = true ∧
    (handleJoinCreatedRoom createRoomScenario).joinedRoom = some "R1" := by
  refine ⟨rfl, ?_, ?_, ?_⟩ <;> decide

/-- C10: a fetched room is in the compatible list exactly when it matches the
local configuration in both max points and flor flag, and the join button of
any listed room with 2 or more players is disabled. -/
theorem claim_C10_compatible_rooms (gameConfig : GameConfig)
    (waitingRooms : List WaitingRoom) (room : WaitingRoom) (connected : Bool) :
    (room ∈ compatibleRooms gameConfig waitingRooms ↔
      room ∈ waitingRooms ∧ room.config.maxPoints = gameConfig.maxPoints ∧
        room.config.withFlor = gameConfig.withFlor) ∧
    (2 ≤ room.playerCount → joinButtonDisabled connected room = true) := by
  constructor
  · unfold compatibleRooms
    rw [List.mem_filter]
    simp [Bool.and_eq_true]
  · intro h
    simp [joinButtonDisabled, h]

/-- Witness for C10: a full matching room is listed and its join button is
disabled. -/
theorem claim_C10_witness :
    (⟨"R1", none, 2, 0, ⟨15, true⟩⟩ : WaitingRoom) ∈
      compatibleRooms ⟨15, true⟩ [⟨"R1", none, 2, 0, ⟨15, true⟩⟩] ∧
    joinButtonDisabled true ⟨"R1", none, 2, 0, ⟨15, true⟩⟩ = true :=
  ⟨(claim_C10_compatible_rooms ⟨15, true⟩ [⟨"R1", none, 2, 0, ⟨15, true⟩⟩]
        ⟨"R1", none, 2, 0, ⟨15, true⟩⟩ true).1.mpr
      ⟨by simp, rfl, rfl⟩,
    (claim_C10_compatible_rooms ⟨15, true⟩ [⟨"R1", none, 2, 0, ⟨15, true⟩⟩]
        ⟨"R1", none, 2, 0, ⟨15, true⟩⟩ true).2 (by decide)⟩

end Truco
